import Mathlib

/-!
Verification of the fitness-tracker calculation module (`homework.py`).

The module computes distance, mean speed and spent calories for three
workout kinds (running, sports walking, swimming), dispatches raw
`(workout_type, data)` packages to the matching class, and formats the
results into a fixed message template.

Numeric values are embedded as exact rationals (`ℚ`): every constant in
the source is a short decimal literal, and all formulas are plain field
arithmetic, so `ℚ` reproduces them exactly.
-/

/-- Base workout record: `Training.__init__` stores `action`, `duration`
(hours) and `weight` (kg). `action` is annotated `int` in the source but
Python does not enforce it; the field is embedded as `ℚ` and claims about
integer actions quantify over `ℤ` with a coercion. -/
structure Training where
  action : ℚ
  duration : ℚ
  weight : ℚ
deriving Repr, DecidableEq

/-- `SportsWalking` adds `height` (cm) to the base record. -/
structure SportsWalking extends Training where
  height : ℚ
deriving Repr, DecidableEq

/-- `Swimming` adds `length_pool` (m) and `count_pool` (laps). -/
structure Swimming extends Training where
  length_pool : ℚ
  count_pool : ℚ
deriving Repr, DecidableEq

/-- Class constant `Training.M_IN_KM = 1000`. -/
def Training.M_IN_KM : ℚ := 1000

/-- Class constant `Training.LEN_STEP = 0.65`. -/
def Training.LEN_STEP : ℚ := 0.65

/-- Class constant `Training.CALORIES_MEAN_SPEED_MULTIPLIER = 18`. -/
def Training.CALORIES_MEAN_SPEED_MULTIPLIER : ℚ := 18

/-- Class constant `Training.CALORIES_MEAN_SPEED_SHIFT = 1.79`. -/
def Training.CALORIES_MEAN_SPEED_SHIFT : ℚ := 1.79

/-- Class constant `Training.MIN_IN_HOUR = 60`. -/
def Training.MIN_IN_HOUR : ℚ := 60

/-- `Training.get_distance`: `self.action * self.LEN_STEP / self.M_IN_KM`.
`self.LEN_STEP` is resolved dynamically through the instance's class, so
the method is parametrised by the class's step-length constant
(`Training.LEN_STEP` for Running/SportsWalking, `Swimming.LEN_STEP` for
Swimming). -/
def Training.get_distance (lenStep : ℚ) (t : Training) : ℚ :=
  t.action * lenStep / Training.M_IN_KM

/-- `Training.get_mean_speed`: `self.get_distance() / self.duration`
(the default, not overridden by Running or SportsWalking). -/
def Training.get_mean_speed (lenStep : ℚ) (t : Training) : ℚ :=
  Training.get_distance lenStep t / t.duration

/-- `Training.get_spent_calories` (base-class body, lines 50-57):
`(MULTIPLIER * mean_speed + SHIFT) * weight / M_IN_KM * duration * MIN_IN_HOUR`. -/
def Training.get_spent_calories (lenStep : ℚ) (t : Training) : ℚ :=
  (Training.CALORIES_MEAN_SPEED_MULTIPLIER * Training.get_mean_speed lenStep t
      + Training.CALORIES_MEAN_SPEED_SHIFT)
    * t.weight / Training.M_IN_KM * t.duration * Training.MIN_IN_HOUR

/-- `Running.CALORIES_MEAN_SPEED_MULTIPLIER = 18` (redeclared in `Running`). -/
def Running.CALORIES_MEAN_SPEED_MULTIPLIER : ℚ := 18

/-- `Running.CALORIES_MEAN_SPEED_SHIFT = 1.79` (redeclared in `Running`). -/
def Running.CALORIES_MEAN_SPEED_SHIFT : ℚ := 1.79

/-- `Running.get_spent_calories` (overriding body, lines 74-81). `Running`
adds no fields, so the carrier is `Training`; its mean speed is the
inherited default with the inherited `LEN_STEP = 0.65`. -/
def Running.get_spent_calories (t : Training) : ℚ :=
  (Running.CALORIES_MEAN_SPEED_MULTIPLIER
        * Training.get_mean_speed Training.LEN_STEP t
      + Running.CALORIES_MEAN_SPEED_SHIFT)
    * t.weight / Training.M_IN_KM * t.duration * Training.MIN_IN_HOUR

/-- Class constant `SportsWalking.CONSTANT_MULTIPLIER = 0.035`. -/
def SportsWalking.CONSTANT_MULTIPLIER : ℚ := 0.035

/-- Class constant `SportsWalking.SPEED_HEIGHT_MULTIPLIER = 0.029`. -/
def SportsWalking.SPEED_HEIGHT_MULTIPLIER : ℚ := 0.029

/-- Class constant `SportsWalking.CONSTANT_TO_TRANSFORM_K_H_TO_M_S = 0.278`. -/
def SportsWalking.CONSTANT_TO_TRANSFORM_K_H_TO_M_S : ℚ := 0.278

/-- Class constant `SportsWalking.CENT_IN_M = 100`. -/
def SportsWalking.CENT_IN_M : ℚ := 100

/-- `SportsWalking.get_spent_calories` (lines 100-107):
`(0.035*weight + ((mean_speed*0.278)**2 / (height/100)) * 0.029*weight) * (duration*60)`;
mean speed is the inherited default with the inherited `LEN_STEP = 0.65`. -/
def SportsWalking.get_spent_calories (sw : SportsWalking) : ℚ :=
  (SportsWalking.CONSTANT_MULTIPLIER * sw.weight
      + ((Training.get_mean_speed Training.LEN_STEP sw.toTraining
            * SportsWalking.CONSTANT_TO_TRANSFORM_K_H_TO_M_S) ^ 2
          / (sw.height / SportsWalking.CENT_IN_M))
        * SportsWalking.SPEED_HEIGHT_MULTIPLIER * sw.weight)
    * (sw.duration * Training.MIN_IN_HOUR)

/-- Class constant `Swimming.CONSTANT_MULTIPLIER = 2`. -/
def Swimming.CONSTANT_MULTIPLIER : ℚ := 2

/-- Class constant `Swimming.CALORIES_MEAN_SPEED_SHIFT = 1.1` (override). -/
def Swimming.CALORIES_MEAN_SPEED_SHIFT : ℚ := 1.1

/-- Class constant `Swimming.LEN_STEP = 1.38` (override of the base 0.65). -/
def Swimming.LEN_STEP : ℚ := 1.38

/-- `Swimming.get_distance`: the method is inherited from `Training`
unchanged, but `self.LEN_STEP` now resolves to `Swimming.LEN_STEP = 1.38`. -/
def Swimming.get_distance (s : Swimming) : ℚ :=
  Training.get_distance Swimming.LEN_STEP s.toTraining

/-- `Swimming.get_mean_speed` (overriding body, lines 127-132):
`length_pool * count_pool / M_IN_KM / duration`. -/
def Swimming.get_mean_speed (s : Swimming) : ℚ :=
  s.length_pool * s.count_pool / Training.M_IN_KM / s.duration

/-- `Swimming.get_spent_calories` (lines 134-140):
`(mean_speed + 1.1) * 2 * weight * duration`. -/
def Swimming.get_spent_calories (s : Swimming) : ℚ :=
  (Swimming.get_mean_speed s + Swimming.CALORIES_MEAN_SPEED_SHIFT)
    * Swimming.CONSTANT_MULTIPLIER * s.weight * s.duration

/-- Runtime union of the `Training` subclasses a dispatched package can
yield; method calls on the result dispatch on the variant, mirroring
Python's dynamic dispatch. -/
inductive Workout
  | running (t : Training)
  | walking (sw : SportsWalking)
  | swimming (s : Swimming)
deriving Repr, DecidableEq

/-- Dispatched `get_distance`. -/
def Workout.get_distance : Workout → ℚ
  | .running t => Training.get_distance Training.LEN_STEP t
  | .walking sw => Training.get_distance Training.LEN_STEP sw.toTraining
  | .swimming s => Swimming.get_distance s

/-- Dispatched `get_mean_speed`. -/
def Workout.get_mean_speed : Workout → ℚ
  | .running t => Training.get_mean_speed Training.LEN_STEP t
  | .walking sw => Training.get_mean_speed Training.LEN_STEP sw.toTraining
  | .swimming s => Swimming.get_mean_speed s

/-- Dispatched `get_spent_calories`. -/
def Workout.get_spent_calories : Workout → ℚ
  | .running t => Running.get_spent_calories t
  | .walking sw => SportsWalking.get_spent_calories sw
  | .swimming s => Swimming.get_spent_calories s

/-- Errors the dispatcher can surface. `keyError` and `typeError` embed the
Python exceptions `read_package` actually raises: `KeyError` (carrying the
missing key) from the dict lookup, and `TypeError` from calling a
constructor with the wrong number of positional arguments.
`unknownTypeError` and `arityMismatchError` are modelled from the spec's
section 7 (the source defines no such classes); they exist so that spec
claims about them can be stated, and `read_package` never produces them. -/
inductive DispatchError
  | keyError (key : String)
  | typeError
  | unknownTypeError (msg : String)
  | arityMismatchError (given required : Nat)
deriving Repr, DecidableEq

/-- `read_package(workout_type, data)` (lines 143-149): looks `workout_type`
up in `{'SWM': Swimming, 'RUN': Running, 'WLK': SportsWalking}` and calls
the class on the unpacked `data`. A missing key raises `KeyError(workout_type)`;
a `data` whose length differs from the constructor's arity (Running 3,
SportsWalking 4, Swimming 5) raises `TypeError`. -/
def read_package (workout_type : String) (data : List ℚ) : Except DispatchError Workout :=
  if workout_type = "SWM" then
    match data with
    | [a, d, w, lp, cp] => .ok (.swimming ⟨⟨a, d, w⟩, lp, cp⟩)
    | _ => .error .typeError
  else if workout_type = "RUN" then
    match data with
    | [a, d, w] => .ok (.running ⟨a, d, w⟩)
    | _ => .error .typeError
  else if workout_type = "WLK" then
    match data with
    | [a, d, w, h] => .ok (.walking ⟨⟨a, d, w⟩, h⟩)
    | _ => .error .typeError
  else
    .error (.keyError workout_type)

/-- `InfoMessage.__init__` fields. -/
structure InfoMessage where
  training_type : String
  duration : ℚ
  distance : ℚ
  speed : ℚ
  calories : ℚ

/-- Decimal digit character, total: every output is one of `'0'`-`'9'`
(only ever applied to `n % 10`). -/
def digitChar (n : Nat) : Char :=
  if n = 0 then '0' else if n = 1 then '1' else if n = 2 then '2'
  else if n = 3 then '3' else if n = 4 then '4' else if n = 5 then '5'
  else if n = 6 then '6' else if n = 7 then '7' else if n = 8 then '8'
  else '9'

/-- Three decimal digits of `n` (zero-padded), the fractional block of a
`.3f` rendering. -/
def digits3 (n : Nat) : String :=
  ⟨[digitChar (n / 100 % 10), digitChar (n / 10 % 10), digitChar (n % 10)]⟩

/-- Round to the nearest integer, ties to even — the rounding CPython's
fixed-point float formatting performs. -/
def roundHalfEven (q : ℚ) : ℤ :=
  if q - ⌊q⌋ < 1 / 2 then ⌊q⌋
  else if 1 / 2 < q - ⌊q⌋ then ⌊q⌋ + 1
  else if ⌊q⌋ % 2 = 0 then ⌊q⌋ else ⌊q⌋ + 1

/-- Python's `f'{x:.3f}'` field rendering: sign, integer part, `.`, exactly
three fractional digits. -/
def formatFixed3 (q : ℚ) : String :=
  (if q < 0 then "-" else "")
    ++ toString ((roundHalfEven (|q| * 1000)).toNat / 1000) ++ "."
    ++ digits3 ((roundHalfEven (|q| * 1000)).toNat % 1000)

/-- `InfoMessage.get_message` (lines 15-20): the fixed (Russian) template
with the four numeric fields rendered via `:.3f`. -/
def InfoMessage.get_message (m : InfoMessage) : String :=
  "Тип тренировки: " ++ m.training_type
    ++ "; Длительность: " ++ formatFixed3 m.duration
    ++ " ч.; Дистанция: " ++ formatFixed3 m.distance
    ++ " км; Ср. скорость: " ++ formatFixed3 m.speed
    ++ " км/ч; Потрачено ккал: " ++ formatFixed3 m.calories ++ "."

/-- `show_training_info` builds an `InfoMessage` from
`self.__class__.__name__` and the three derived quantities. -/
def Workout.show_training_info (wk : Workout) : InfoMessage :=
  { training_type :=
      match wk with
      | .running _ => "Running"
      | .walking _ => "SportsWalking"
      | .swimming _ => "Swimming"
    duration :=
      match wk with
      | .running t => t.duration
      | .walking sw => sw.duration
      | .swimming s => s.duration
    distance := wk.get_distance
    speed := wk.get_mean_speed
    calories := wk.get_spent_calories }

/-- Number of characters after the last `'.'` of a string (the rendered
decimal places when those characters are digits). -/
def decimalPlaces (s : String) : Nat :=
  (s.data.reverse.takeWhile (fun c => c != '.')).length

/-- The fractional block of a rendered field, read back off the string. -/
def fracBlock (s : String) : List Char :=
  (s.data.reverse.takeWhile (fun c => c != '.')).reverse

-- Helper lemmas --------------------------------------------------------

lemma data_append (a b : String) : (a ++ b).data = a.data ++ b.data := rfl

lemma digitChar_ne_dot (n : Nat) : digitChar n ≠ '.' := by
  unfold digitChar
  repeat' split
  all_goals decide

lemma digitChar_isDigit (n : Nat) : (digitChar n).isDigit = true := by
  unfold digitChar
  repeat' split
  all_goals decide

lemma decimalPlaces_append_digits3 (a : String) (n : Nat) :
    decimalPlaces (a ++ "." ++ digits3 n) = 3 := by
  unfold decimalPlaces digits3
  rw [data_append, data_append]
  have h1 := digitChar_ne_dot (n / 100 % 10)
  have h2 := digitChar_ne_dot (n / 10 % 10)
  have h3 := digitChar_ne_dot (n % 10)
  simp [List.takeWhile_cons, h1, h2, h3]

lemma decimalPlaces_formatFixed3 (q : ℚ) : decimalPlaces (formatFixed3 q) = 3 := by
  unfold formatFixed3
  exact decimalPlaces_append_digits3 _ _

lemma fracBlock_append_digits3 (a : String) (n : Nat) :
    fracBlock (a ++ "." ++ digits3 n) =
      [digitChar (n / 100 % 10), digitChar (n / 10 % 10), digitChar (n % 10)] := by
  unfold fracBlock digits3
  rw [data_append, data_append]
  have h1 := digitChar_ne_dot (n / 100 % 10)
  have h2 := digitChar_ne_dot (n / 10 % 10)
  have h3 := digitChar_ne_dot (n % 10)
  simp [List.takeWhile_cons, h1, h2, h3]

lemma fracBlock_formatFixed3_digits (q : ℚ) :
    ∀ c ∈ fracBlock (formatFixed3 q), c.isDigit = true := by
  unfold formatFixed3
  rw [fracBlock_append_digits3]
  intro c hc
  simp only [List.mem_cons, List.not_mem_nil, or_false] at hc
  rcases hc with h | h | h
  all_goals rw [h]; exact digitChar_isDigit _

lemma roundHalfEven_thousand : roundHalfEven (|(1 : ℚ)| * 1000) = 1000 := by
  unfold roundHalfEven
  norm_num

lemma formatFixed3_one : formatFixed3 1 = "1.000" := by
  unfold formatFixed3
  rw [roundHalfEven_thousand, if_neg (by norm_num : ¬ (1 : ℚ) < 0)]
  rfl

lemma get_message_ones :
    InfoMessage.get_message ⟨"Running", 1, 1, 1, 1⟩ =
      "Тип тренировки: Running; Длительность: 1.000 ч.; Дистанция: 1.000 км; Ср. скорость: 1.000 км/ч; Потрачено ккал: 1.000." := by
  show "Тип тренировки: " ++ "Running"
      ++ "; Длительность: " ++ formatFixed3 1
      ++ " ч.; Дистанция: " ++ formatFixed3 1
      ++ " км; Ср. скорость: " ++ formatFixed3 1
      ++ " км/ч; Потрачено ккал: " ++ formatFixed3 1 ++ "." = _
  rw [formatFixed3_one]
  rfl

-- Theorems -------------------------------------------------------------

/-- Claim C1: for every Running workout with integer `action`,
`duration > 0` and given `weight`, `get_distance` returns
`action * 0.65 / 1000`, `get_mean_speed` returns that distance divided by
`duration`, and `get_spent_calories` returns
`(18 * mean_speed + 1.79) * weight / 1000 * duration * 60`. -/
theorem C1_running_formulas (a : ℤ) (d w : ℚ) (h : 0 < d) :
    Training.get_distance Training.LEN_STEP ⟨(a : ℚ), d, w⟩ = (a : ℚ) * 0.65 / 1000 ∧
    Training.get_mean_speed Training.LEN_STEP ⟨(a : ℚ), d, w⟩ = ((a : ℚ) * 0.65 / 1000) / d ∧
    Running.get_spent_calories ⟨(a : ℚ), d, w⟩ =
      (18 * (((a : ℚ) * 0.65 / 1000) / d) + 1.79) * w / 1000 * d * 60 :=
  ⟨rfl, rfl, rfl⟩

theorem C1_running_formulas_witness :
    (0 : ℚ) < 1 ∧
    (Training.get_distance Training.LEN_STEP ⟨(1 : ℚ), 1, 1⟩ = ((1 : ℤ) : ℚ) * 0.65 / 1000 ∧
     Training.get_mean_speed Training.LEN_STEP ⟨(1 : ℚ), 1, 1⟩ =
       (((1 : ℤ) : ℚ) * 0.65 / 1000) / 1 ∧
     Running.get_spent_calories ⟨(1 : ℚ), 1, 1⟩ =
       (18 * ((((1 : ℤ) : ℚ) * 0.65 / 1000) / 1) + 1.79) * 1 / 1000 * 1 * 60) :=
  ⟨by norm_num, C1_running_formulas 1 1 1 (by norm_num)⟩

/-- Claim C2: for every Swimming workout with `duration > 0`,
`get_mean_speed` returns `length_pool * count_pool / 1000 / duration`; in
particular the result does not depend on the `action` field (and hence not
on the step-length constant, which only enters through `action`-based
distance). -/
theorem C2_swimming_mean_speed (a d w lp cp : ℚ) (h : 0 < d) :
    Swimming.get_mean_speed ⟨⟨a, d, w⟩, lp, cp⟩ = lp * cp / 1000 / d ∧
    ∀ a' : ℚ, Swimming.get_mean_speed ⟨⟨a', d, w⟩, lp, cp⟩ =
      Swimming.get_mean_speed ⟨⟨a, d, w⟩, lp, cp⟩ :=
  ⟨rfl, fun _ => rfl⟩

theorem C2_swimming_mean_speed_witness :
    (0 : ℚ) < 1 ∧
    (Swimming.get_mean_speed ⟨⟨720, 1, 80⟩, 25, 40⟩ = 25 * 40 / 1000 / 1 ∧
     ∀ a' : ℚ, Swimming.get_mean_speed ⟨⟨a', 1, 80⟩, 25, 40⟩ =
       Swimming.get_mean_speed ⟨⟨720, 1, 80⟩, 25, 40⟩) :=
  ⟨by norm_num, C2_swimming_mean_speed 720 1 80 25 40 (by norm_num)⟩

/-- Claim C3: for every Walking workout with `duration > 0` and
`height > 0`, `get_spent_calories` returns
`(0.035*weight + (mean_speed*0.278)^2/(height/100) * 0.029*weight) * duration * 60`,
where `mean_speed` is the default `distance / duration` with step length
0.65. -/
theorem C3_walking_calories (a d w ht : ℚ) (hd : 0 < d) (hh : 0 < ht) :
    SportsWalking.get_spent_calories ⟨⟨a, d, w⟩, ht⟩ =
      (0.035 * w
          + (Training.get_mean_speed Training.LEN_STEP ⟨a, d, w⟩ * 0.278) ^ 2
            / (ht / 100) * 0.029 * w)
        * d * 60 ∧
    Training.get_mean_speed Training.LEN_STEP ⟨a, d, w⟩ = (a * 0.65 / 1000) / d := by
  constructor
  · show (0.035 * w
        + (Training.get_mean_speed Training.LEN_STEP ⟨a, d, w⟩ * 0.278) ^ 2
          / (ht / 100) * 0.029 * w) * (d * 60) = _
    ring
  · rfl

theorem C3_walking_calories_witness :
    ((0 : ℚ) < 1 ∧ (0 : ℚ) < 180) ∧
    (SportsWalking.get_spent_calories ⟨⟨9000, 1, 75⟩, 180⟩ =
       (0.035 * 75
           + (Training.get_mean_speed Training.LEN_STEP ⟨9000, 1, 75⟩ * 0.278) ^ 2
             / (180 / 100) * 0.029 * 75)
         * 1 * 60 ∧
     Training.get_mean_speed Training.LEN_STEP ⟨9000, 1, 75⟩ = (9000 * 0.65 / 1000) / 1) :=
  ⟨⟨by norm_num, by norm_num⟩, C3_walking_calories 9000 1 75 180 (by norm_num) (by norm_num)⟩

/-- Claim C4: for every Swimming workout with `duration > 0`,
`get_spent_calories` returns `(mean_speed + 1.1) * 2 * weight * duration`,
and Swimming's step-length constant used for distance is 1.38. -/
theorem C4_swimming_calories (a d w lp cp : ℚ) (h : 0 < d) :
    Swimming.get_spent_calories ⟨⟨a, d, w⟩, lp, cp⟩ =
      (Swimming.get_mean_speed ⟨⟨a, d, w⟩, lp, cp⟩ + 1.1) * 2 * w * d ∧
    Swimming.LEN_STEP = 1.38 ∧
    Swimming.get_distance ⟨⟨a, d, w⟩, lp, cp⟩ = a * 1.38 / 1000 :=
  ⟨rfl, rfl, rfl⟩

theorem C4_swimming_calories_witness :
    (0 : ℚ) < 1 ∧
    (Swimming.get_spent_calories ⟨⟨720, 1, 80⟩, 25, 40⟩ =
       (Swimming.get_mean_speed ⟨⟨720, 1, 80⟩, 25, 40⟩ + 1.1) * 2 * 80 * 1 ∧
     Swimming.LEN_STEP = 1.38 ∧
     Swimming.get_distance ⟨⟨720, 1, 80⟩, 25, 40⟩ = 720 * 1.38 / 1000) :=
  ⟨by norm_num, C4_swimming_calories 720 1 80 25 40 (by norm_num)⟩

/-- Claim C10: for every `(action, duration, weight)` with `duration > 0`,
Running's overriding `get_spent_calories` returns exactly the value of the
inherited base-class `Training.get_spent_calories` on the same record: the
override is an exact re-implementation (same constants 18 and 1.79, same
structure). -/
theorem C10_running_override_equals_base (a d w : ℚ) (h : 0 < d) :
    Running.get_spent_calories ⟨a, d, w⟩ =
      Training.get_spent_calories Training.LEN_STEP ⟨a, d, w⟩ :=
  rfl

theorem C10_running_override_equals_base_witness :
    (0 : ℚ) < 1 ∧
    Running.get_spent_calories ⟨15000, 1, 75⟩ =
      Training.get_spent_calories Training.LEN_STEP ⟨15000, 1, 75⟩ :=
  ⟨by norm_num, C10_running_override_equals_base 15000 1 75 (by norm_num)⟩

/-- Claim C5 (counterexample): dispatching the unknown code `"XYZ"` does
not produce an `UnknownTypeError` (for any message): `read_package` raises
a plain `KeyError` from the dict lookup instead. -/
theorem C5_counterexample :
    ¬ ∃ msg : String, read_package "XYZ" [720, 1, 80] =
      Except.error (DispatchError.unknownTypeError msg) := by
  intro hex
  obtain ⟨msg, hm⟩ := hex
  rw [show read_package "XYZ" [720, 1, 80] =
    Except.error (DispatchError.keyError "XYZ") from rfl] at hm
  simp at hm

/-- Claim C5 (amended): for every `type_code` not in {SWM, RUN, WLK} and
any value list, `read_package` fails — but with Python's `KeyError`
carrying only the unknown code; the code defines no `UnknownTypeError` and
the message does not enumerate the valid codes. -/
theorem C5_unknown_code (tc : String) (data : List ℚ)
    (h : tc ∉ (["SWM", "RUN", "WLK"] : List String)) :
    read_package tc data = Except.error (DispatchError.keyError tc) := by
  simp only [List.mem_cons, List.not_mem_nil, or_false, not_or] at h
  obtain ⟨h1, h2, h3⟩ := h
  unfold read_package
  rw [if_neg h1, if_neg h2, if_neg h3]

theorem C5_unknown_code_witness :
    "XYZ" ∉ (["SWM", "RUN", "WLK"] : List String) ∧
    read_package "XYZ" [720, 1, 80] = Except.error (DispatchError.keyError "XYZ") :=
  ⟨by decide, C5_unknown_code "XYZ" [720, 1, 80] (by decide)⟩

/-- Claim C6 (counterexample): `read_package "RUN" [1, 2]` does not produce
an `ArityMismatchError` (for any pair of counts): the mismatched
constructor call raises Python's plain `TypeError` instead. -/
theorem C6_counterexample :
    ¬ ∃ g r : Nat, read_package "RUN" [1, 2] =
      Except.error (DispatchError.arityMismatchError g r) := by
  intro hex
  obtain ⟨g, r, hm⟩ := hex
  rw [show read_package "RUN" [1, 2] =
    Except.error DispatchError.typeError from rfl] at hm
  simp at hm

/-- Claim C6 (amended): for every recognized `type_code`, if the length of
the value list differs from the arity of the resolved variant (Running: 3,
Walking: 4, Swimming: 5), `read_package` fails — but with Python's plain
`TypeError` from the mismatched constructor call, not a dedicated
`ArityMismatchError` reporting the given and required counts. -/
theorem C6_arity_mismatch (tc : String) (n : Nat) (data : List ℚ)
    (hcode : (tc, n) ∈ [("RUN", 3), ("WLK", 4), ("SWM", 5)])
    (hlen : data.length ≠ n) :
    read_package tc data = Except.error DispatchError.typeError := by
  simp only [List.mem_cons, List.not_mem_nil, or_false, Prod.mk.injEq] at hcode
  rcases hcode with ⟨rfl, rfl⟩ | ⟨rfl, rfl⟩ | ⟨rfl, rfl⟩
  · match data with
    | [] => rfl
    | [a] => rfl
    | [a, b] => rfl
    | [a, b, c] => exact absurd rfl hlen
    | a :: b :: c :: d :: rest => rfl
  · match data with
    | [] => rfl
    | [a] => rfl
    | [a, b] => rfl
    | [a, b, c] => rfl
    | [a, b, c, d] => exact absurd rfl hlen
    | a :: b :: c :: d :: e :: rest => rfl
  · match data with
    | [] => rfl
    | [a] => rfl
    | [a, b] => rfl
    | [a, b, c] => rfl
    | [a, b, c, d] => rfl
    | [a, b, c, d, e] => exact absurd rfl hlen
    | a :: b :: c :: d :: e :: f :: rest => rfl

theorem C6_arity_mismatch_witness :
    (("RUN", 3) ∈ [("RUN", 3), ("WLK", 4), ("SWM", 5)] ∧
      ([(1 : ℚ), 2] : List ℚ).length ≠ 3) ∧
    read_package "RUN" [1, 2] = Except.error DispatchError.typeError :=
  ⟨⟨by decide, by decide⟩, C6_arity_mismatch "RUN" 3 [1, 2] (by decide) (by decide)⟩

/-- Claim C7 (counterexample): dispatching `("SWM", [720, 1, 80, 25, 40])`
yields the Swimming workout, but its `get_distance` is not 0.468:
`Swimming.LEN_STEP = 1.38`, so the distance is `720 * 1.38 / 1000 = 0.9936`. -/
theorem C7_counterexample :
    read_package "SWM" [720, 1, 80, 25, 40] =
      Except.ok (Workout.swimming ⟨⟨720, 1, 80⟩, 25, 40⟩) ∧
    Workout.get_distance (Workout.swimming ⟨⟨720, 1, 80⟩, 25, 40⟩) ≠ 0.468 :=
  ⟨rfl, by
    norm_num [Workout.get_distance, Swimming.get_distance, Training.get_distance,
      Swimming.LEN_STEP, Training.M_IN_KM]⟩

/-- Claim C7 (amended): dispatching the single input
`("SWM", [720, 1, 80, 25, 40])` yields a calculator whose `get_distance`
returns 0.9936 (step length 1.38, printed as 0.994), `get_mean_speed`
returns 1.0, and `get_spent_calories` returns exactly 336.0. -/
theorem C7_swimming_end_to_end :
    read_package "SWM" [720, 1, 80, 25, 40] =
      Except.ok (Workout.swimming ⟨⟨720, 1, 80⟩, 25, 40⟩) ∧
    Workout.get_distance (Workout.swimming ⟨⟨720, 1, 80⟩, 25, 40⟩) = 0.9936 ∧
    Workout.get_mean_speed (Workout.swimming ⟨⟨720, 1, 80⟩, 25, 40⟩) = 1 ∧
    Workout.get_spent_calories (Workout.swimming ⟨⟨720, 1, 80⟩, 25, 40⟩) = 336 :=
  ⟨rfl,
   by
     norm_num [Workout.get_distance, Swimming.get_distance, Training.get_distance,
       Swimming.LEN_STEP, Training.M_IN_KM],
   by
     norm_num [Workout.get_mean_speed, Swimming.get_mean_speed, Training.M_IN_KM],
   by
     norm_num [Workout.get_spent_calories, Swimming.get_spent_calories,
       Swimming.get_mean_speed, Swimming.CALORIES_MEAN_SPEED_SHIFT,
       Swimming.CONSTANT_MULTIPLIER, Training.M_IN_KM]⟩

/-- Claim C8: for every `InfoMessage`, the formatted message renders each
of the four numeric fields (duration, distance, speed, calories) as a
block of exactly 3 digit characters after a decimal point, regardless of
the input values' precision; in particular a field equal to 1 is rendered
as "1.000". -/
theorem C8_three_decimal_places (m : InfoMessage) :
    ∃ s1 s2 s3 s4 : String,
      m.get_message =
        "Тип тренировки: " ++ m.training_type
          ++ "; Длительность: " ++ s1
          ++ " ч.; Дистанция: " ++ s2
          ++ " км; Ср. скорость: " ++ s3
          ++ " км/ч; Потрачено ккал: " ++ s4 ++ "." ∧
      (decimalPlaces s1 = 3 ∧ ∀ c ∈ fracBlock s1, c.isDigit = true) ∧
      (decimalPlaces s2 = 3 ∧ ∀ c ∈ fracBlock s2, c.isDigit = true) ∧
      (decimalPlaces s3 = 3 ∧ ∀ c ∈ fracBlock s3, c.isDigit = true) ∧
      (decimalPlaces s4 = 3 ∧ ∀ c ∈ fracBlock s4, c.isDigit = true) ∧
      formatFixed3 1 = "1.000" :=
  ⟨formatFixed3 m.duration, formatFixed3 m.distance,
   formatFixed3 m.speed, formatFixed3 m.calories,
   rfl,
   ⟨decimalPlaces_formatFixed3 _, fracBlock_formatFixed3_digits _⟩,
   ⟨decimalPlaces_formatFixed3 _, fracBlock_formatFixed3_digits _⟩,
   ⟨decimalPlaces_formatFixed3 _, fracBlock_formatFixed3_digits _⟩,
   ⟨decimalPlaces_formatFixed3 _, fracBlock_formatFixed3_digits _⟩,
   formatFixed3_one⟩

/-- Claim C9 (counterexample): the reporter does not return the English
template the spec quotes: on the record ("Running", 1, 1, 1, 1) the
message is the Russian template rendering, not
"Workout type: Running; Duration: 1.000 h.; ...". -/
theorem C9_counterexample :
    InfoMessage.get_message ⟨"Running", 1, 1, 1, 1⟩ ≠
      "Workout type: Running; Duration: 1.000 h.; Distance: 1.000 km; Avg. speed: 1.000 km/h; Calories burned: 1.000." := by
  rw [get_message_ones]
  decide

/-- Claim C9 (amended): for every `InfoMessage`, the reporter returns
exactly the fixed Russian template
"Тип тренировки: {type}; Длительность: {duration} ч.; Дистанция: {distance} км; Ср. скорость: {speed} км/ч; Потрачено ккал: {calories}."
with the fields substituted in (of which the spec's English template is a
translation); e.g. the all-ones Running record renders to the concrete
string below. -/
theorem C9_fixed_template :
    (∀ m : InfoMessage, m.get_message =
      "Тип тренировки: " ++ m.training_type
        ++ "; Длительность: " ++ formatFixed3 m.duration
        ++ " ч.; Дистанция: " ++ formatFixed3 m.distance
        ++ " км; Ср. скорость: " ++ formatFixed3 m.speed
        ++ " км/ч; Потрачено ккал: " ++ formatFixed3 m.calories ++ ".") ∧
    InfoMessage.get_message ⟨"Running", 1, 1, 1, 1⟩ =
      "Тип тренировки: Running; Длительность: 1.000 ч.; Дистанция: 1.000 км; Ср. скорость: 1.000 км/ч; Потрачено ккал: 1.000." :=
  ⟨fun _ => rfl, get_message_ones⟩
